import Mathlib

/-!
Verification of the cl-optimizer repository's extraction and analysis
pipeline (src/job_scraper.py and src/resume_analizer.py) against its
natural-language specification.

The Python code is shallowly embedded: dictionaries become association
lists over a JSON value type, exceptions become `Except`, the HTML
parser (BeautifulSoup) is modelled as an oracle answering CSS-selector
queries, and the LLM backend is modelled by the response text it
produces.  `json.loads` is modelled by an executable recursive-descent
parser covering the JSON fragment the program manipulates (integers,
strings with basic escapes, arrays, objects, literals); Python dict
semantics (last duplicate key wins, insertion order kept) are mirrored.
-/

/-- Opening curly brace character (written via its code point). -/
def lbrace : Char := Char.ofNat 123

/-- Closing curly brace character (written via its code point). -/
def rbrace : Char := Char.ofNat 125

/-- Double-quote character. -/
def quoteChar : Char := Char.ofNat 34

/-- Backslash character. -/
def backslashChar : Char := Char.ofNat 92

/-- Whitespace as recognised by Python `str.strip` (ASCII fragment). -/
def pyWs (c : Char) : Bool :=
  c = ' ' || c = '\t' || c = '\n' || c = '\r' || c = '\x0b' || c = '\x0c'

/-- Model of Python `str.strip()`: drop leading and trailing whitespace. -/
def pyStrip (s : String) : String :=
  String.mk (((s.toList.dropWhile pyWs).reverse.dropWhile pyWs).reverse)

/-- Model of Python `str.lower()` (ASCII fragment). -/
def pyLower (s : String) : String :=
  String.mk (s.toList.map Char.toLower)

/-- Model of Python `str.endswith`. -/
def pyEndsWith (s suffix : String) : Bool :=
  List.isPrefixOf suffix.toList.reverse s.toList.reverse

/-- Substring test on char lists, used to model Python's `in` operator. -/
def containsSub (needle : List Char) : List Char → Bool
  | [] => List.isPrefixOf needle []
  | c :: rest => List.isPrefixOf needle (c :: rest) || containsSub needle rest

/-- Model of Python `needle in hay` for strings. -/
def inStr (needle hay : String) : Bool :=
  containsSub needle.toList hay.toList

/-- Characters allowed in a URL scheme after the leading letter
(mirrors CPython `urllib.parse` scheme validation). -/
def schemeChar (c : Char) : Bool :=
  c.isAlphanum || c = '+' || c = '-' || c = '.'

/-- Model of `urllib.parse.urlparse(url).scheme`: the text before the
first colon when it is a well-formed scheme, lowercased, else `""`. -/
def urlScheme (url : String) : String :=
  let cs := url.toList
  let before := cs.takeWhile (fun c => c ≠ ':')
  if before.length = cs.length then ""
  else
    match before with
    | [] => ""
    | c :: rest =>
        if c.isAlpha && rest.all schemeChar then
          String.mk ((c :: rest).map Char.toLower)
        else ""

/-- JSON values as produced by `json.loads` (integer-number fragment). -/
inductive JValue where
  | null : JValue
  | bool : Bool → JValue
  | num : Int → JValue
  | str : String → JValue
  | arr : List JValue → JValue
  | obj : List (String × JValue) → JValue

/-- Python truthiness of a JSON value (`bool(v)`). -/
def truthy : JValue → Bool
  | .null => false
  | .bool b => b
  | .num n => n != 0
  | .str s => s != ""
  | .arr xs => !xs.isEmpty
  | .obj fs => !fs.isEmpty

/-- Dictionary lookup (first matching key; keys are unique after parsing). -/
def dictLookup (fields : List (String × JValue)) (k : String) : Option JValue :=
  match fields with
  | [] => none
  | (k', v) :: rest => if k' = k then some v else dictLookup rest k

/-- Model of Python `d.get(k)`: `None` when the key is absent. -/
def dictGetD (fields : List (String × JValue)) (k : String) : JValue :=
  (dictLookup fields k).getD .null

/-- Model of Python `k in d`. -/
def hasKey (fields : List (String × JValue)) (k : String) : Bool :=
  (dictLookup fields k).isSome

/-- Model of Python `d[k] = v`: overwrite in place, else append
(insertion order preserved, as for Python dicts). -/
def dictSet (fields : List (String × JValue)) (k : String) (v : JValue) :
    List (String × JValue) :=
  match fields with
  | [] => [(k, v)]
  | (k', v') :: rest =>
      if k' = k then (k', v) :: rest else (k', v') :: dictSet rest k v

/-- JSON whitespace skipping (space, tab, newline, carriage return). -/
def skipWs : List Char → List Char
  | [] => []
  | c :: rest =>
      if c = ' ' || c = '\t' || c = '\n' || c = '\r' then skipWs rest
      else c :: rest

/-- String-literal body parser: consumes up to the closing quote,
handling the basic escapes. Fueled for termination. -/
def parseStrAux : Nat → List Char → List Char →
    Except String (String × List Char)
  | 0, _, _ => .error "Out of fuel"
  | _ + 1, _, [] => .error "Unterminated string"
  | fuel + 1, acc, c :: rest =>
      if c = quoteChar then .ok (String.mk acc.reverse, rest)
      else if c = backslashChar then
        match rest with
        | [] => .error "Unterminated string"
        | e :: rest2 =>
            if e = quoteChar then parseStrAux fuel (quoteChar :: acc) rest2
            else if e = backslashChar then
              parseStrAux fuel (backslashChar :: acc) rest2
            else if e = '/' then parseStrAux fuel ('/' :: acc) rest2
            else if e = 'n' then parseStrAux fuel ('\n' :: acc) rest2
            else if e = 't' then parseStrAux fuel ('\t' :: acc) rest2
            else if e = 'r' then parseStrAux fuel ('\r' :: acc) rest2
            else .error "Invalid escape"
      else parseStrAux fuel (c :: acc) rest

/-- Digit-run parser accumulating a natural number. -/
def parseDigits : List Char → Nat → (Nat × List Char)
  | [], acc => (acc, [])
  | c :: rest, acc =>
      if c.isDigit then parseDigits rest (acc * 10 + (c.toNat - 48))
      else (acc, c :: rest)

/-- Consume a literal character sequence, returning the remainder. -/
def dropLit (lit cs : List Char) : Option (List Char) :=
  if List.isPrefixOf lit cs then some (cs.drop lit.length) else none

mutual

/-- Fueled JSON value parser (model of the recursive part of `json.loads`). -/
def parseVal : Nat → List Char → Except String (JValue × List Char)
  | 0, _ => .error "Out of fuel"
  | fuel + 1, cs =>
      match skipWs cs with
      | [] => .error "Expecting value"
      | c :: rest =>
          if c = lbrace then
            match skipWs rest with
            | [] => .error "Expecting property name"
            | d :: rest2 =>
                if d = rbrace then .ok (.obj [], rest2)
                else parseObjBody fuel (d :: rest2) []
          else if c = '[' then
            match skipWs rest with
            | [] => .error "Expecting value"
            | d :: rest2 =>
                if d = ']' then .ok (.arr [], rest2)
                else parseArrBody fuel (d :: rest2) []
          else if c = quoteChar then
            match parseStrAux (fuel + 1) [] rest with
            | .error e => .error e
            | .ok (s, r) => .ok (.str s, r)
          else if c = '-' then
            match rest with
            | [] => .error "Expecting value"
            | d :: _ =>
                if d.isDigit then
                  let (n, r) := parseDigits rest 0
                  .ok (.num (-(n : Int)), r)
                else .error "Expecting value"
          else if c.isDigit then
            let (n, r) := parseDigits (c :: rest) 0
            .ok (.num (n : Int), r)
          else
            match dropLit [ 't', 'r', 'u', 'e' ] (c :: rest) with
            | some r => .ok (.bool true, r)
            | none =>
                match dropLit [ 'f', 'a', 'l', 's', 'e' ] (c :: rest) with
                | some r => .ok (.bool false, r)
                | none =>
                    match dropLit [ 'n', 'u', 'l', 'l' ] (c :: rest) with
                    | some r => .ok (JValue.null, r)
                    | none => .error "Expecting value"

/-- Object-member parser: expects a key at the current position.
Duplicate keys overwrite in place, as `json.loads` does. -/
def parseObjBody : Nat → List Char → List (String × JValue) →
    Except String (JValue × List Char)
  | 0, _, _ => .error "Out of fuel"
  | fuel + 1, cs, acc =>
      match skipWs cs with
      | [] => .error "Expecting property name"
      | c :: rest =>
          if c = quoteChar then
            match parseStrAux (fuel + 1) [] rest with
            | .error e => .error e
            | .ok (k, r1) =>
                match skipWs r1 with
                | [] => .error "Expecting colon"
                | d :: r2 =>
                    if d = ':' then
                      match parseVal fuel r2 with
                      | .error e => .error e
                      | .ok (v, r3) =>
                          let acc2 := dictSet acc k v
                          match skipWs r3 with
                          | [] => .error "Expecting delimiter"
                          | e :: r4 =>
                              if e = ',' then parseObjBody fuel r4 acc2
                              else if e = rbrace then .ok (.obj acc2, r4)
                              else .error "Expecting delimiter"
                    else .error "Expecting colon"
          else .error "Expecting property name"

/-- Array-element parser: expects a value at the current position. -/
def parseArrBody : Nat → List Char → List JValue →
    Except String (JValue × List Char)
  | 0, _, _ => .error "Out of fuel"
  | fuel + 1, cs, acc =>
      match parseVal fuel cs with
      | .error e => .error e
      | .ok (v, r1) =>
          match skipWs r1 with
          | [] => .error "Expecting delimiter"
          | d :: r2 =>
              if d = ',' then parseArrBody fuel r2 (acc ++ [v])
              else if d = ']' then .ok (.arr (acc ++ [v]), r2)
              else .error "Expecting delimiter"

end

/-- Model of `json.loads`: parse one value and require that only
whitespace remains ("Extra data" otherwise), as the Python call does. -/
def jsonParse (s : String) : Except String JValue :=
  match parseVal (2 * s.toList.length + 4) s.toList with
  | .error e => .error e
  | .ok (v, rest) =>
      match skipWs rest with
      | [] => .ok v
      | _ => .error "Extra data"

/-!
Model of `generate_analysis` in src/resume_analizer.py.  The Gemini
backend is opaque; it is modelled by the response text it produces
(`none` when no response / no text attribute is available).
-/

/-- Prefix of a char list up to and including its last closing brace. -/
def upToLastRBrace : List Char → Option (List Char)
  | [] => none
  | c :: rest =>
      match upToLastRBrace rest with
      | some tail => some (c :: tail)
      | none => if c = rbrace then some [c] else none

/-- Scan for the span matched by the greedy regex search. -/
def greedySpanAux : List Char → Option (List Char)
  | [] => none
  | c :: rest =>
      if c = lbrace then
        match upToLastRBrace rest with
        | some body => some (c :: body)
        | none => greedySpanAux rest
      else greedySpanAux rest

/-- Model of `re.search(r"({[\s\S]*})", text)`: the greedy match runs
from the first opening brace (that has a closing brace after it) to the
last closing brace of the whole text. -/
def greedyBraceSpan (s : String) : Option String :=
  (greedySpanAux s.toList).map String.mk

/-- Modelled from the spec: scan from an opening brace keeping a brace
depth, returning the block once the depth returns to zero. -/
def balancedAux : Nat → List Char → List Char → Option (List Char)
  | _, _, [] => none
  | depth, acc, c :: rest =>
      if c = lbrace then balancedAux (depth + 1) (c :: acc) rest
      else if c = rbrace then
        if depth = 1 then some (c :: acc).reverse
        else balancedAux (depth - 1) (c :: acc) rest
      else balancedAux depth (c :: acc) rest

/-- Modelled from the spec: find the first balanced brace block. -/
def firstBalancedAux : List Char → Option (List Char)
  | [] => none
  | c :: rest =>
      if c = lbrace then
        match balancedAux 1 [c] rest with
        | some blk => some blk
        | none => firstBalancedAux rest
      else firstBalancedAux rest

/-- Modelled from the spec: "extracts the first balanced `{...}` JSON
block from the free-form response".  Used only to compare the spec's
stated extraction contract with the code's actual greedy regex. -/
def firstBalancedBlock (s : String) : Option String :=
  (firstBalancedAux s.toList).map String.mk

/-- The three fixed fallback recommendation strings from the source. -/
def fallbackRecommendations : JValue :=
  .arr [.str "Highlight relevant project achievements",
        .str "Quantify your impact with metrics",
        .str "Add specific examples of team leadership"]

/-- Recommendations defaulting step of the per-job loop:
`if not job.get("recommendations"): job["recommendations"] = [...]`. -/
def fixRecs (fields : List (String × JValue)) : List (String × JValue) :=
  if truthy (dictGetD fields "recommendations") then fields
  else dictSet fields "recommendations" fallbackRecommendations

/-- Job-title defaulting step: `if not job.get("job_title"): ...`. -/
def fixTitle (fields : List (String × JValue)) : List (String × JValue) :=
  if truthy (dictGetD fields "job_title") then fields
  else dictSet fields "job_title" (.str "Position")

/-- Company-name defaulting step: `if not job.get("company_name"): ...`. -/
def fixCompany (fields : List (String × JValue)) : List (String × JValue) :=
  if truthy (dictGetD fields "company_name") then fields
  else dictSet fields "company_name" (.str "Company")

/-- The full body of the per-job normalization loop on a job dict. -/
def fixJobFields (fields : List (String × JValue)) : List (String × JValue) :=
  fixCompany (fixTitle (fixRecs fields))

/-- One iteration of `for job in analysis["jobs"]`: a non-dict job makes
`job.get` raise `AttributeError`. -/
def fixJob : JValue → Except String JValue
  | .obj fields => .ok (.obj (fixJobFields fields))
  | _ => .error "AttributeError: object has no attribute get"

/-- Total counterpart of `fixJob` on job dicts (identity elsewhere). -/
def fixJobPure : JValue → JValue
  | .obj fields => .obj (fixJobFields fields)
  | v => v

/-- Effectful map over a list, stopping at the first raised error. -/
def mapME (f : JValue → Except String JValue) :
    List JValue → Except String (List JValue)
  | [] => .ok []
  | x :: xs =>
      match f x with
      | .error e => .error e
      | .ok y =>
          match mapME f xs with
          | .error e => .error e
          | .ok ys => .ok (y :: ys)

/-- Model of the loop `for job in analysis["jobs"]` with Python
iteration semantics: lists iterate elements, strings iterate characters,
dicts iterate keys (both raising `AttributeError` at `job.get` on the
first non-dict item), and other values raise `TypeError`. -/
def processJobs : JValue → Except String JValue
  | .arr js =>
      match mapME fixJob js with
      | .ok out => .ok (.arr out)
      | .error e => .error e
  | .str s =>
      if s = "" then .ok (.str "")
      else .error "AttributeError: object has no attribute get"
  | .obj fields =>
      match fields with
      | [] => .ok (.obj [])
      | _ => .error "AttributeError: object has no attribute get"
  | _ => .error "TypeError: object is not iterable"

/-- Error kinds produced by `generate_analysis` (the `backendError`
catch-all corresponds to the outer `except Exception` branch). -/
inductive GenError where
  | emptyResponse : GenError
  | invalidFormat : GenError
  | invalidStructure : GenError
  | backendError : String → GenError

/-- The human-readable message attached to each error kind. -/
def GenError.message : GenError → String
  | .emptyResponse => "No response from AI model"
  | .invalidFormat => "Invalid response format"
  | .invalidStructure => "Invalid response structure"
  | .backendError m => "Error generating analysis: " ++ m

/-- Result envelope of `generate_analysis`: either
`{"success": False, "error": ...}` or `{"success": True, "jobs": ...}`. -/
inductive GenResult where
  | failure : GenError → GenResult
  | success : JValue → GenResult

/-- Whether a generation result is the success envelope. -/
def GenResult.isSuccess : GenResult → Bool
  | .success _ => true
  | .failure _ => false

/-- Structure validation and normalization of the parsed response
(lines 154-171 of src/resume_analizer.py). -/
def validateAndNormalize (analysis : JValue) : GenResult :=
  match analysis with
  | .obj fields =>
      if hasKey fields "jobs" then
        match processJobs (dictGetD fields "jobs") with
        | .ok out => .success out
        | .error e => .failure (.backendError e)
      else .failure .invalidStructure
  | _ => .failure .invalidStructure

/-- Model of `generate_analysis` from the backend response onward:
empty-response check, greedy regex extraction, `json.loads`, structure
validation, and the per-job defaulting loop.  Any exception inside the
`try` block is caught and returned as the catch-all failure. -/
def generate_analysis : Option String → GenResult
  | none => .failure .emptyResponse
  | some txt =>
      if txt = "" then .failure .emptyResponse
      else
        match greedyBraceSpan txt with
        | none => .failure .invalidFormat
        | some s =>
            match jsonParse s with
            | .error e => .failure (.backendError e)
            | .ok analysis => validateAndNormalize analysis

/-- Modelled from the spec: the pipeline as the spec describes it, with
"the first balanced `{...}` JSON block" extracted instead of the greedy
regex span.  Identical to `generate_analysis` in every other respect. -/
def generateAnalysisSpec : Option String → GenResult
  | none => .failure .emptyResponse
  | some txt =>
      if txt = "" then .failure .emptyResponse
      else
        match firstBalancedBlock txt with
        | none => .failure .invalidFormat
        | some s =>
            match jsonParse s with
            | .error e => .failure (.backendError e)
            | .ok analysis => validateAndNormalize analysis

/-- Number of recommendations carried by the first job entry of a
successful analysis result (0 when absent or not a list). -/
def firstJobRecCount : GenResult → Nat
  | .success (.arr (j :: _)) =>
      match j with
      | .obj f =>
          match dictGetD f "recommendations" with
          | .arr l => l.length
          | _ => 0
      | _ => 0
  | _ => 0

/-- The named field of the first job entry of a successful result. -/
def firstJobField (r : GenResult) (k : String) : JValue :=
  match r with
  | .success (.arr (j :: _)) =>
      match j with
      | .obj f => dictGetD f k
      | _ => .null
  | _ => .null

/-!
Model of `analyze_resume` in src/resume_analizer.py.  The resume file
is a byte stream with a filename; the PDF text extractor and UTF-8
decoder are collaborators modelled by their outcomes (`UnicodeDecodeError`
is a `ValueError`, so both failure paths hit `except ValueError`).
-/

/-- A resume upload: the filename plus the outcomes of the two possible
content-reading collaborators. -/
structure ResumeFile where
  filename : String
  pdfText : Except String String
  txtText : Except String String

/-- Result envelope of `analyze_resume`. -/
inductive AnalyzeResult where
  | failure : String → AnalyzeResult
  | success : JValue → AnalyzeResult

/-- The tail of `analyze_resume` after the resume content was read:
parse the job-links JSON, then run the generation pipeline. -/
def analyzeAfterRead (jobLinks : String) (responseText : Option String) :
    AnalyzeResult :=
  match jsonParse jobLinks with
  | .error _ => .failure "Invalid job links format"
  | .ok _ =>
      match generate_analysis responseText with
      | .failure e => .failure (GenError.message e)
      | .success jobs => .success jobs

/-- Model of `analyze_resume`: dispatch on the lowercased filename
suffix, read content, parse job links, generate the analysis. -/
def analyze_resume (resume : ResumeFile) (jobLinks : String)
    (responseText : Option String) : AnalyzeResult :=
  let fname := pyLower resume.filename
  if pyEndsWith fname ".pdf" then
    match resume.pdfText with
    | .error e => .failure e
    | .ok _ => analyzeAfterRead jobLinks responseText
  else if pyEndsWith fname ".txt" then
    match resume.txtText with
    | .error e => .failure e
    | .ok _ => analyzeAfterRead jobLinks responseText
  else .failure "Unsupported file format. Please upload a PDF or TXT file."

/-!
Model of src/job_scraper.py.  BeautifulSoup is a collaborator: a parsed
page is an oracle answering `select_one` queries (which may raise) plus
the result of the keyword-based `soup.find` fallback.  An element
carries its `.text` property and the result of `get_text(strip=True)`.
-/

/-- A DOM element as consumed by the scraper. -/
structure Element where
  text : String
  getTextStrip : String

/-- A parsed page: `select_one` per selector (allowed to raise), and the
outcome of the keyword `soup.find(lambda tag: ...)` fallback search. -/
structure Soup where
  selectOne : String → Except String (Option Element)
  findDescByKeyword : Except String (Option Element)

/-- The ordered Indeed title selectors from the source. -/
def titleSelectorsIndeed : List String :=
  ["h1.jobsearch-JobInfoHeader-title",
   "div.jobsearch-JobInfoHeader-title-container h1",
   "h1.icl-u-xs-mb--xs"]

/-- The ordered LinkedIn title selectors from the source. -/
def titleSelectorsLinkedin : List String :=
  ["h1.top-card-layout__title",
   "h1.job-details-jobs-unified-top-card__job-title",
   "h1.topcard__title"]

/-- The ordered generic title selectors from the source. -/
def titleSelectorsGeneric : List String :=
  ["h1", "h1.job-title", "div.job-title", "title"]

/-- The ordered Indeed company selectors from the source. -/
def companySelectorsIndeed : List String :=
  ["div[data-company-name=\"true\"]",
   "div.jobsearch-CompanyInfoContainer span.jobsearch-CompanyInfoWithoutHeaderImage",
   "div.jobsearch-InlineCompanyRating > div:first-child"]

/-- The ordered LinkedIn company selectors from the source. -/
def companySelectorsLinkedin : List String :=
  ["a.company-name-link",
   "a[data-tracking-control-name=\"public_jobs_topcard-org-name\"]",
   "span.topcard__flavor",
   "a.sub-nav-cta__optional-url"]

/-- The ordered generic company selectors from the source. -/
def companySelectorsGeneric : List String :=
  ["div[class*=\"company\"]", "span[class*=\"company\"]",
   "div[class*=\"employer\"]", "span[class*=\"employer\"]"]

/-- The ordered description selectors from the source. -/
def descriptionSelectors : List String :=
  ["div.job-description",
   "div[data-automation='jobDescription']",
   "#job-description",
   ".description__text",
   "div.description",
   "div[class*='jobsearch-jobDescriptionText']",
   "div[class*='show-more-less-html']",
   "div[class*='job-description']"]

/-- One selector loop for title/company extraction: the first element
whose stripped text is non-empty wins; an element with empty stripped
text is skipped (`if element and element.text.strip()`). -/
def firstNonEmpty (soup : Soup) : List String → Except String (Option String)
  | [] => .ok none
  | sel :: rest =>
      match soup.selectOne sel with
      | .error e => .error e
      | .ok none => firstNonEmpty soup rest
      | .ok (some el) =>
          if pyStrip el.text != "" then .ok (some (pyStrip el.text))
          else firstNonEmpty soup rest

/-- Platform-specific tier: Indeed list when "indeed.com" is in the URL,
LinkedIn list when "linkedin.com" is, otherwise no platform tier. -/
def platformFirst (soup : Soup) (url : String)
    (indeedL linkedinL : List String) : Except String (Option String) :=
  if inStr "indeed.com" url then firstNonEmpty soup indeedL
  else if inStr "linkedin.com" url then firstNonEmpty soup linkedinL
  else .ok none

/-- Two-tier title cascade: platform tier first, generic tier only when
the platform tier produced nothing (`if not job_title`). -/
def titleResolved (soup : Soup) (url : String) : Except String (Option String) :=
  match platformFirst soup url titleSelectorsIndeed titleSelectorsLinkedin with
  | .error e => .error e
  | .ok (some t) => .ok (some t)
  | .ok none => firstNonEmpty soup titleSelectorsGeneric

/-- Two-tier company cascade, mirroring the title cascade. -/
def companyResolved (soup : Soup) (url : String) : Except String (Option String) :=
  match platformFirst soup url companySelectorsIndeed companySelectorsLinkedin with
  | .error e => .error e
  | .ok (some c) => .ok (some c)
  | .ok none => firstNonEmpty soup companySelectorsGeneric

/-- Body of the `try` block of `extract_job_details`: title cascade,
then company cascade, then sentinel defaulting via `or`. -/
def extractCore (soup : Soup) (url : String) : Except String (String × String) :=
  match titleResolved soup url with
  | .error e => .error e
  | .ok jt =>
      match companyResolved soup url with
      | .error e => .error e
      | .ok cn =>
          .ok (jt.getD "Position Not Found", cn.getD "Company Not Found")

/-- URL-derived platform label, computed before the `try` block. -/
def platformOf (url : String) : String :=
  if inStr "indeed.com" url then "Indeed"
  else if inStr "linkedin.com" url then "LinkedIn"
  else "Other"

/-- The dictionary returned by `extract_job_details`. -/
structure JobDetails where
  job_title : String
  company_name : String
  platform : String

/-- Model of `extract_job_details`: any exception inside the `try` block
is caught and downgraded to the two sentinel values. -/
def extract_job_details (soup : Soup) (url : String) : JobDetails :=
  match extractCore soup url with
  | .ok (t, c) => ⟨t, c, platformOf url⟩
  | .error _ => ⟨"Position Not Found", "Company Not Found", platformOf url⟩

/-- A page with no matching elements at all (empty/garbage HTML). -/
def emptySoup : Soup := ⟨fun _ => .ok none, .ok none⟩

/-- The result dictionary of `scrape_job_description`; `none` in an
optional field models the key being absent from the returned dict. -/
structure ScrapeResult where
  success : Bool
  error : Option String
  description : Option String
  job_title : Option String
  company_name : Option String
  platform : Option String
  requires_manual_entry : Option Bool

/-- The hard failure returned for an invalid URL. -/
def invalidUrlResult : ScrapeResult :=
  ⟨false, some "Invalid URL provided", none, none, none, none, none⟩

/-- The soft success returned for HTTP 403. -/
def soft403Result : ScrapeResult :=
  ⟨true, none,
   some "Unable to automatically fetch job description. Please enter the job description manually.",
   some "Position Not Found", some "Company Not Found", some "Unknown", some true⟩

/-- The soft success returned from `except requests.RequestException`. -/
def transportSoftResult : ScrapeResult :=
  ⟨true, none, some "Unable to fetch job description. Please enter it manually.",
   some "Position Not Found", some "Company Not Found", some "Unknown", some true⟩

/-- The soft success returned from the catch-all `except Exception`. -/
def unexpectedSoftResult : ScrapeResult :=
  ⟨true, none, some "Error accessing job posting. Please enter the job description manually.",
   some "Position Not Found", some "Company Not Found", some "Unknown", some true⟩

/-- A successful scrape carrying a description and the extracted details
(note: no `requires_manual_entry` key in this dict). -/
def descSuccessResult (d : String) (jd : JobDetails) : ScrapeResult :=
  ⟨true, none, some d, some jd.job_title, some jd.company_name,
   some jd.platform, none⟩

/-- The soft success returned when no description could be located. -/
def manualFallbackResult (jd : JobDetails) : ScrapeResult :=
  ⟨true, none,
   some "Unable to automatically extract job description. Please enter the job description manually.",
   some jd.job_title, some jd.company_name, some jd.platform, some true⟩

/-- Description selector loop: the FIRST selector matching any element
wins, with no check on the element's text (unlike title/company). -/
def firstDescMatch (soup : Soup) : List String → Except String (Option Element)
  | [] => .ok none
  | sel :: rest =>
      match soup.selectOne sel with
      | .error e => .error e
      | .ok (some el) => .ok (some el)
      | .ok none => firstDescMatch soup rest

/-- Body of the `try` block after a non-error HTTP response: extract
details, then the description cascade with its two fallbacks. -/
def scrapeCore (url : String) (page : Soup) : Except String ScrapeResult :=
  let jd := extract_job_details page url
  match firstDescMatch page descriptionSelectors with
  | .error e => .error e
  | .ok (some el) => .ok (descSuccessResult el.getTextStrip jd)
  | .ok none =>
      match page.findDescByKeyword with
      | .error e => .error e
      | .ok (some el) => .ok (descSuccessResult el.getTextStrip jd)
      | .ok none => .ok (manualFallbackResult jd)

/-- Outcome of `requests.get`: a response with a status code and parsed
body, a raised `requests.RequestException` (network/transport error), or
any other raised exception. -/
inductive FetchResult where
  | resp : Nat → Soup → FetchResult
  | requestExc : String → FetchResult
  | otherExc : String → FetchResult

/-- Model of `scrape_job_description`: URL validation, the 403 special
case, `raise_for_status` (which raises `HTTPError`, a
`RequestException`, exactly for statuses in [400, 600)), extraction, and
the two exception handlers. -/
def scrape_job_description (url : String) (net : FetchResult) : ScrapeResult :=
  if url = "" ∨ urlScheme url = "" then invalidUrlResult
  else
    match net with
    | .requestExc _ => transportSoftResult
    | .otherExc _ => unexpectedSoftResult
    | .resp status page =>
        if status = 403 then soft403Result
        else if 400 ≤ status ∧ status < 600 then transportSoftResult
        else
          match scrapeCore url page with
          | .ok r => r
          | .error _ => unexpectedSoftResult

/-! Dictionary lemmas used by the normalization-loop theorems. -/

/-- Looking up the key just set yields the new value. -/
theorem dictLookup_dictSet_self (f : List (String × JValue)) (k : String)
    (v : JValue) : dictLookup (dictSet f k v) k = some v := by
  induction f with
  | nil => simp [dictSet, dictLookup]
  | cons p rest ih =>
      obtain ⟨k', v'⟩ := p
      by_cases h : k' = k
      · simp [dictSet, dictLookup, h]
      · simp [dictSet, dictLookup, h, ih]

/-- Setting one key leaves lookups of other keys unchanged. -/
theorem dictLookup_dictSet_ne (f : List (String × JValue)) (k k' : String)
    (v : JValue) (h : k' ≠ k) :
    dictLookup (dictSet f k' v) k = dictLookup f k := by
  induction f with
  | nil => simp [dictSet, dictLookup, h]
  | cons p rest ih =>
      obtain ⟨k0, v0⟩ := p
      by_cases h0 : k0 = k'
      · subst h0
        simp [dictSet, dictLookup, h]
      · by_cases hk : k0 = k
        · simp [dictSet, dictLookup, h0, hk, Ne.symm h]
        · simp [dictSet, dictLookup, h0, hk, ih]

/-- The recommendations step does not disturb other keys. -/
theorem fixRecs_lookup_ne (f : List (String × JValue)) (k : String)
    (h : k ≠ "recommendations") :
    dictLookup (fixRecs f) k = dictLookup f k := by
  unfold fixRecs
  split
  · rfl
  · exact dictLookup_dictSet_ne f k "recommendations" _ (Ne.symm h)

/-- The job-title step does not disturb other keys. -/
theorem fixTitle_lookup_ne (f : List (String × JValue)) (k : String)
    (h : k ≠ "job_title") :
    dictLookup (fixTitle f) k = dictLookup f k := by
  unfold fixTitle
  split
  · rfl
  · exact dictLookup_dictSet_ne f k "job_title" _ (Ne.symm h)

/-- The company-name step does not disturb other keys. -/
theorem fixCompany_lookup_ne (f : List (String × JValue)) (k : String)
    (h : k ≠ "company_name") :
    dictLookup (fixCompany f) k = dictLookup f k := by
  unfold fixCompany
  split
  · rfl
  · exact dictLookup_dictSet_ne f k "company_name" _ (Ne.symm h)

/-- The recommendations key after the whole per-job loop body: kept when
truthy, otherwise the three fallback strings. -/
theorem fixJobFields_recs (f : List (String × JValue)) :
    dictLookup (fixJobFields f) "recommendations" =
      if truthy (dictGetD f "recommendations") then
        dictLookup f "recommendations"
      else some fallbackRecommendations := by
  unfold fixJobFields
  rw [fixCompany_lookup_ne _ _ (by decide), fixTitle_lookup_ne _ _ (by decide)]
  unfold fixRecs
  split
  · simp [*]
  · simp [dictLookup_dictSet_self, *]

/-- The job-title key after the loop body on the recommendations-fixed
fields: kept when truthy, otherwise the "Position" placeholder. -/
theorem fixTitle_lookup_title (f : List (String × JValue)) :
    dictLookup (fixTitle f) "job_title" =
      if truthy (dictGetD f "job_title") then dictLookup f "job_title"
      else some (.str "Position") := by
  unfold fixTitle
  split
  · simp [*]
  · simp [dictLookup_dictSet_self, *]

/-- The company-name key after the company step: kept when truthy,
otherwise the "Company" placeholder. -/
theorem fixCompany_lookup_company (f : List (String × JValue)) :
    dictLookup (fixCompany f) "company_name" =
      if truthy (dictGetD f "company_name") then dictLookup f "company_name"
      else some (.str "Company") := by
  unfold fixCompany
  split
  · simp [*]
  · simp [dictLookup_dictSet_self, *]

/-- Every job dict leaving the loop body has truthy recommendations. -/
theorem fixJobFields_recs_truthy (f : List (String × JValue)) :
    truthy (dictGetD (fixJobFields f) "recommendations") = true := by
  unfold dictGetD
  rw [fixJobFields_recs f]
  by_cases ht : truthy (dictGetD f "recommendations") = true
  · rw [if_pos ht]
    exact ht
  · rw [if_neg ht]
    rfl

/-- Inversion for the effectful map: every output element is the image
of some input element under a successful `fixJob`. -/
theorem mapME_mem_fix (js : List JValue) (out : List JValue)
    (h : mapME fixJob js = .ok out) :
    ∀ y ∈ out, ∃ x, fixJob x = .ok y := by
  induction js generalizing out with
  | nil =>
      unfold mapME at h
      injection h with h1
      subst h1
      intro y hy
      simp at hy
  | cons x xs ih =>
      unfold mapME at h
      cases hfx : fixJob x <;> rw [hfx] at h
      · simp at h
      · cases hm : mapME fixJob xs <;> rw [hm] at h
        · simp at h
        · injection h with h1
          subst h1
          intro y hy
          rcases List.mem_cons.mp hy with hy | hy
          · subst hy
            exact ⟨x, hfx⟩
          · exact ih _ hm y hy

/-- A successful `fixJob` yields a job dict with truthy recommendations. -/
theorem fixJob_ok_inv (x y : JValue) (h : fixJob x = .ok y) :
    ∃ f, y = .obj f ∧ truthy (dictGetD f "recommendations") = true := by
  cases x <;> simp [fixJob] at h
  case obj fields =>
    subst h
    exact ⟨fixJobFields fields, rfl, fixJobFields_recs_truthy fields⟩

/-- Definitional equation of `processJobs` on lists. -/
theorem processJobs_arr (js : List JValue) :
    processJobs (.arr js) =
      match mapME fixJob js with
      | .ok out => .ok (.arr out)
      | .error e => .error e := rfl

/-- Definitional equation of `processJobs` on strings. -/
theorem processJobs_str (s : String) :
    processJobs (.str s) =
      if s = "" then .ok (.str "")
      else .error "AttributeError: object has no attribute get" := rfl

/-- Definitional equation of `processJobs` on dicts. -/
theorem processJobs_obj (fields : List (String × JValue)) :
    processJobs (.obj fields) =
      match fields with
      | [] => .ok (.obj [])
      | _ => .error "AttributeError: object has no attribute get" := rfl

/-- A list-valued loop result comes from mapping `fixJob` over a list. -/
theorem processJobs_ok_arr (jv : JValue) (out : List JValue)
    (h : processJobs jv = .ok (.arr out)) :
    ∀ y ∈ out, ∃ x, fixJob x = .ok y := by
  cases jv with
  | arr js =>
      rw [processJobs_arr] at h
      cases hm : mapME fixJob js <;> rw [hm] at h
      · simp at h
      · injection h with h1
        injection h1 with h2
        subst h2
        exact mapME_mem_fix js _ hm
  | str s =>
      rw [processJobs_str] at h
      by_cases hs : s = "" <;> simp [hs] at h
  | obj fields =>
      rw [processJobs_obj] at h
      cases fields <;> simp at h
  | null => simp [processJobs] at h
  | bool b => simp [processJobs] at h
  | num n => simp [processJobs] at h

/-- Whether a JSON value is an object (a Python dict). -/
def isObjB : JValue → Bool
  | .obj _ => true
  | _ => false

/-- When every element is a job dict, the loop succeeds and is the
pointwise pure normalization, in order. -/
theorem mapME_fixJob_allObj (js : List JValue) (h : js.all isObjB = true) :
    mapME fixJob js = .ok (js.map fixJobPure) := by
  induction js with
  | nil => rfl
  | cons x xs ih =>
      rw [List.all_cons, Bool.and_eq_true] at h
      obtain ⟨h1, h2⟩ := h
      cases x <;> simp [isObjB] at h1
      case obj fields =>
        simp [mapME, fixJob, fixJobPure, ih h2]

/-- Definitional equation of `generate_analysis` on a present response. -/
theorem generate_analysis_some (txt : String) :
    generate_analysis (some txt) =
      if txt = "" then .failure .emptyResponse
      else
        match greedyBraceSpan txt with
        | none => .failure .invalidFormat
        | some s =>
            match jsonParse s with
            | .error e => .failure (.backendError e)
            | .ok analysis => validateAndNormalize analysis := rfl

/-- Definitional equation of `validateAndNormalize` on a dict. -/
theorem validateAndNormalize_obj (fields : List (String × JValue)) :
    validateAndNormalize (.obj fields) =
      if hasKey fields "jobs" then
        match processJobs (dictGetD fields "jobs") with
        | .ok out => .success out
        | .error e => .failure (.backendError e)
      else .failure .invalidStructure := rfl

/-- The empty string contains no brace span. -/
theorem greedyBraceSpan_empty : greedyBraceSpan "" = none := rfl

/-- When extraction and parsing succeed, the pipeline is exactly the
validation/normalization of the parsed value. -/
theorem generate_analysis_eq_validate (txt s : String) (v : JValue)
    (h1 : greedyBraceSpan txt = some s) (h2 : jsonParse s = .ok v) :
    generate_analysis (some txt) = validateAndNormalize v := by
  have htxt : txt ≠ "" := by
    intro he
    subst he
    exact Option.noConfusion (greedyBraceSpan_empty.symm.trans h1)
  rw [generate_analysis_some, if_neg htxt, h1]
  dsimp only
  rw [h2]

/-- A successful pipeline run factors through extraction, parsing and
validation. -/
theorem generate_analysis_success_inv (txt : String) (r : JValue)
    (h : generate_analysis (some txt) = .success r) :
    ∃ s v, greedyBraceSpan txt = some s ∧ jsonParse s = .ok v ∧
      validateAndNormalize v = .success r := by
  rw [generate_analysis_some] at h
  by_cases htxt : txt = ""
  · rw [if_pos htxt] at h
    exact absurd h (by simp)
  · rw [if_neg htxt] at h
    cases hg : greedyBraceSpan txt with
    | none =>
        rw [hg] at h
        exact absurd h (by simp)
    | some s =>
        rw [hg] at h
        dsimp only at h
        cases hp : jsonParse s with
        | error e =>
            rw [hp] at h
            exact absurd h (by simp)
        | ok v =>
            rw [hp] at h
            dsimp only at h
            exact ⟨s, v, rfl, hp, h⟩

/-- A successful validation comes from a dict with a "jobs" key whose
value survived the normalization loop. -/
theorem validateAndNormalize_success_inv (v r : JValue)
    (h : validateAndNormalize v = .success r) :
    ∃ fields, v = .obj fields ∧ hasKey fields "jobs" = true ∧
      processJobs (dictGetD fields "jobs") = .ok r := by
  cases v with
  | obj fields =>
      rw [validateAndNormalize_obj] at h
      by_cases hk : hasKey fields "jobs" = true
      · rw [if_pos hk] at h
        cases hpj : processJobs (dictGetD fields "jobs") <;> rw [hpj] at h
        · exact absurd h (by simp)
        · injection h with h1
          subst h1
          exact ⟨fields, rfl, hk, hpj⟩
      · rw [if_neg hk] at h
        exact absurd h (by simp)
  | null => exact absurd h (by simp [validateAndNormalize])
  | bool b => exact absurd h (by simp [validateAndNormalize])
  | num n => exact absurd h (by simp [validateAndNormalize])
  | str s => exact absurd h (by simp [validateAndNormalize])
  | arr a => exact absurd h (by simp [validateAndNormalize])

/-- Whether a parsed value is a dict containing the key "jobs". -/
def hasJobsKey : JValue → Bool
  | .obj f => hasKey f "jobs"
  | _ => false

/-- C1 (amended).  The assembler guarantees that every job entry of a
successful structured result carries a truthy `recommendations` value
(in particular a non-empty list whenever it is a list), and whenever the
backend entry's `recommendations` is missing or falsy (omitted, empty
list, null, ...) it injects exactly the three fixed fallback strings.
It does NOT guarantee at least 3 items: a non-empty backend list of
fewer than 3 recommendations is kept as-is (see the counterexample). -/
theorem c1_recommendations_normalized :
    (∀ fields, truthy (dictGetD fields "recommendations") = false →
      dictGetD (fixJobFields fields) "recommendations" = fallbackRecommendations) ∧
    fallbackRecommendations =
      .arr [.str "Highlight relevant project achievements",
            .str "Quantify your impact with metrics",
            .str "Add specific examples of team leadership"] ∧
    (∀ txt out, generate_analysis (some txt) = .success (.arr out) →
      ∀ j ∈ out, ∃ f, j = .obj f ∧ truthy (dictGetD f "recommendations") = true) := by
  refine ⟨?_, rfl, ?_⟩
  · intro fields hf
    unfold dictGetD
    rw [fixJobFields_recs fields]
    simp [hf]
  · intro txt out h j hj
    obtain ⟨s, v, _, _, hv⟩ := generate_analysis_success_inv txt _ h
    obtain ⟨fields, _, _, hpj⟩ := validateAndNormalize_success_inv v _ hv
    obtain ⟨x, hx⟩ := processJobs_ok_arr _ _ hpj j hj
    exact fixJob_ok_inv x j hx

/-- C1 witness: a job entry with no recommendations key at all receives
exactly the three fallback strings. -/
theorem c1_recommendations_normalized_witness :
    dictGetD (fixJobFields [("match_percentage", JValue.num 88)])
      "recommendations" = fallbackRecommendations :=
  c1_recommendations_normalized.1 [("match_percentage", JValue.num 88)] rfl

/-- C1 counterexample: the backend supplies a single-item
recommendations list; the assembler keeps it, so a successful result
carries a job entry with only 1 recommendation, refuting "at least 3
items" for every emitted entry. -/
theorem c1_short_list_survives :
    GenResult.isSuccess (generate_analysis
      (some "\x7b\"jobs\": [\x7b\"recommendations\": [\"Only one\"]\x7d]\x7d")) = true ∧
    firstJobRecCount (generate_analysis
      (some "\x7b\"jobs\": [\x7b\"recommendations\": [\"Only one\"]\x7d]\x7d")) = 1 :=
  ⟨rfl, rfl⟩

/-- C2 (amended).  The extraction step is the GREEDY regex
`re.search(r"(\x7b[\s\S]*\x7d)")`: the span runs from the first opening
brace to the last closing brace of the whole response (not the first
balanced block).  When no such span exists the pipeline fails with the
invalid-format error; when the span fails to parse it returns the
structured catch-all failure instead of raising. -/
theorem c2_greedy_extraction :
    (∀ txt, txt ≠ "" → greedyBraceSpan txt = none →
      generate_analysis (some txt) = .failure .invalidFormat) ∧
    (∀ txt s e, greedyBraceSpan txt = some s → jsonParse s = .error e →
      generate_analysis (some txt) = .failure (.backendError e)) := by
  constructor
  · intro txt h1 h2
    rw [generate_analysis_some, if_neg h1, h2]
  · intro txt s e h1 h2
    have htxt : txt ≠ "" := by
      intro he
      subst he
      exact Option.noConfusion (greedyBraceSpan_empty.symm.trans h1)
    rw [generate_analysis_some, if_neg htxt, h1]
    dsimp only
    rw [h2]

/-- C2 witness: a response with no brace block fails with the
invalid-format error rather than raising. -/
theorem c2_greedy_extraction_witness :
    generate_analysis (some "no json here") = .failure .invalidFormat :=
  c2_greedy_extraction.1 "no json here" (by decide) rfl

/-- C2 counterexample: a response holding two balanced JSON blocks.  The
first balanced block parses (the spec-described pipeline succeeds), but
the code's greedy span covers both blocks, fails to parse, and the call
returns a failure — so the code does not extract "the first balanced
JSON block". -/
theorem c2_two_blocks_diverge :
    GenResult.isSuccess (generate_analysis
      (some "\x7b\"jobs\": []\x7d \x7b\"jobs\": []\x7d")) = false ∧
    generateAnalysisSpec
      (some "\x7b\"jobs\": []\x7d \x7b\"jobs\": []\x7d") = .success (.arr []) ∧
    firstBalancedBlock "\x7b\"jobs\": []\x7d \x7b\"jobs\": []\x7d" =
      some "\x7b\"jobs\": []\x7d" :=
  ⟨rfl, rfl, rfl⟩

/-- C3 (amended).  After parsing, the pipeline fails with the
invalid-structure error EXACTLY when the parsed value is not a dict
containing the key "jobs".  The shape of the "jobs" value itself is not
validated: a non-sequence value is not rejected with that error kind (it
either raises inside the loop, surfacing as the catch-all failure, or —
for an empty dict or empty string — passes through as a success). -/
theorem c3_structure_validation (txt s : String) (v : JValue)
    (h1 : greedyBraceSpan txt = some s) (h2 : jsonParse s = .ok v) :
    (generate_analysis (some txt) = .failure .invalidStructure) ↔
      hasJobsKey v = false := by
  rw [generate_analysis_eq_validate txt s v h1 h2]
  cases v with
  | obj fields =>
      rw [validateAndNormalize_obj]
      by_cases hk : hasKey fields "jobs" = true
      · rw [if_pos hk]
        cases hpj : processJobs (dictGetD fields "jobs") <;>
          simp [hasJobsKey, hk]
      · rw [if_neg hk]
        simp at hk
        simp [hasJobsKey, hk]
  | null => simp [validateAndNormalize, hasJobsKey]
  | bool b => simp [validateAndNormalize, hasJobsKey]
  | num n => simp [validateAndNormalize, hasJobsKey]
  | str s2 => simp [validateAndNormalize, hasJobsKey]
  | arr a => simp [validateAndNormalize, hasJobsKey]

/-- C3 witness: a parsed dict without a "jobs" key is rejected with the
invalid-structure error. -/
theorem c3_structure_validation_witness :
    generate_analysis (some "\x7b\"x\": 1\x7d") = .failure .invalidStructure :=
  (c3_structure_validation "\x7b\"x\": 1\x7d" "\x7b\"x\": 1\x7d"
    (.obj [("x", .num 1)]) rfl rfl).mpr rfl

/-- C3 counterexample: `jobs` bound to a dict (not a sequence) is NOT
rejected — iterating an empty dict runs zero loop iterations and the
call returns success, refuting the claimed sequence check. -/
theorem c3_jobs_dict_accepted :
    generate_analysis (some "\x7b\"jobs\": \x7b\x7d\x7d") =
      .success (.obj []) := rfl

/-- C8 (amended).  A parsed response whose "jobs" value is an array of
dicts yields success with exactly those entries, in order, each entry
transformed only at the three defaulted keys: every other key's value is
unchanged, and each of `recommendations` / `job_title` / `company_name`
is unchanged whenever its backend value is truthy.  (A falsy-but-present
value — e.g. an empty-string `job_title` — is also replaced, not only a
missing one; see the counterexample.) -/
theorem c8_roundtrip_frame :
    (∀ txt s fields js, greedyBraceSpan txt = some s →
      jsonParse s = .ok (.obj fields) →
      dictLookup fields "jobs" = some (.arr js) →
      js.all isObjB = true →
      generate_analysis (some txt) = .success (.arr (js.map fixJobPure)) ∧
      (js.map fixJobPure).length = js.length) ∧
    (∀ f k, k ≠ "recommendations" → k ≠ "job_title" → k ≠ "company_name" →
      dictLookup (fixJobFields f) k = dictLookup f k) ∧
    (∀ f, truthy (dictGetD f "recommendations") = true →
      dictLookup (fixJobFields f) "recommendations" =
        dictLookup f "recommendations") ∧
    (∀ f, truthy (dictGetD f "job_title") = true →
      dictLookup (fixJobFields f) "job_title" = dictLookup f "job_title") ∧
    (∀ f, truthy (dictGetD f "company_name") = true →
      dictLookup (fixJobFields f) "company_name" =
        dictLookup f "company_name") := by
  refine ⟨?_, ?_, ?_, ?_, ?_⟩
  · intro txt s fields js h1 h2 h3 h4
    have hk : hasKey fields "jobs" = true := by simp [hasKey, h3]
    have hget : dictGetD fields "jobs" = .arr js := by simp [dictGetD, h3]
    constructor
    · rw [generate_analysis_eq_validate txt s _ h1 h2, validateAndNormalize_obj,
          if_pos hk, hget, processJobs_arr, mapME_fixJob_allObj js h4]
    · simp
  · intro f k hr ht hc
    unfold fixJobFields
    rw [fixCompany_lookup_ne _ _ hc, fixTitle_lookup_ne _ _ ht,
        fixRecs_lookup_ne _ _ hr]
  · intro f h
    unfold fixJobFields
    rw [fixCompany_lookup_ne _ _ (by decide), fixTitle_lookup_ne _ _ (by decide)]
    unfold fixRecs
    rw [if_pos h]
  · intro f h
    unfold fixJobFields
    rw [fixCompany_lookup_ne _ _ (by decide)]
    have hY : dictGetD (fixRecs f) "job_title" = dictGetD f "job_title" := by
      unfold dictGetD
      rw [fixRecs_lookup_ne _ _ (by decide)]
    rw [fixTitle_lookup_title, hY, if_pos h, fixRecs_lookup_ne _ _ (by decide)]
  · intro f h
    unfold fixJobFields
    have hY : dictGetD (fixTitle (fixRecs f)) "company_name" =
        dictGetD f "company_name" := by
      unfold dictGetD
      rw [fixTitle_lookup_ne _ _ (by decide), fixRecs_lookup_ne _ _ (by decide)]
    rw [fixCompany_lookup_company, hY, if_pos h,
        fixTitle_lookup_ne _ _ (by decide), fixRecs_lookup_ne _ _ (by decide)]

/-- C8 witness: a two-entry jobs array round-trips to a two-entry
success, each entry being its pointwise normalization. -/
theorem c8_roundtrip_frame_witness :
    generate_analysis
      (some "\x7b\"jobs\": [\x7b\x7d, \x7b\"job_title\": \"B\"\x7d]\x7d") =
      .success (.arr ([JValue.obj [],
        JValue.obj [("job_title", .str "B")]].map fixJobPure)) :=
  (c8_roundtrip_frame.1
    "\x7b\"jobs\": [\x7b\x7d, \x7b\"job_title\": \"B\"\x7d]\x7d"
    "\x7b\"jobs\": [\x7b\x7d, \x7b\"job_title\": \"B\"\x7d]\x7d"
    [("jobs", .arr [.obj [], .obj [("job_title", .str "B")]])]
    [.obj [], .obj [("job_title", .str "B")]] rfl rfl rfl rfl).1

/-- C8 counterexample: the first backend entry carries the PRESENT field
`job_title` with value `""`; the assembler still rewrites it to
"Position", so an entry is not field-for-field equal to the backend
entry even though `job_title` was not missing. -/
theorem c8_empty_title_replaced :
    dictLookup [("job_title", JValue.str "")] "job_title" =
      some (.str "") ∧
    firstJobField (generate_analysis
      (some "\x7b\"jobs\": [\x7b\"job_title\": \"\"\x7d, \x7b\"job_title\": \"B\"\x7d]\x7d"))
      "job_title" = .str "Position" :=
  ⟨rfl, rfl⟩

/-- Definitional equation of `scrapeCore`. -/
theorem scrapeCore_eq (url : String) (page : Soup) :
    scrapeCore url page =
      match firstDescMatch page descriptionSelectors with
      | .error e => .error e
      | .ok (some el) =>
          .ok (descSuccessResult el.getTextStrip (extract_job_details page url))
      | .ok none =>
          match page.findDescByKeyword with
          | .error e => .error e
          | .ok (some el) =>
              .ok (descSuccessResult el.getTextStrip (extract_job_details page url))
          | .ok none => .ok (manualFallbackResult (extract_job_details page url)) :=
  rfl

/-- Every result the scrape `try` block can produce is a soft success. -/
theorem scrapeCore_ok_success (url : String) (page : Soup) (r : ScrapeResult)
    (h : scrapeCore url page = .ok r) : r.success = true := by
  rw [scrapeCore_eq] at h
  cases h1 : firstDescMatch page descriptionSelectors <;> rw [h1] at h
  · exact absurd h (by simp)
  case ok o =>
    cases o with
    | some el =>
        injection h with h2
        subst h2
        rfl
    | none =>
        cases h2 : page.findDescByKeyword <;> rw [h2] at h
        · exact absurd h (by simp)
        case ok o2 =>
          cases o2 with
          | some el =>
              injection h with h3
              subst h3
              rfl
          | none =>
              injection h with h3
              subst h3
              rfl

/-- The cascade result when both tiers are given. -/
theorem extract_eq (soup : Soup) (url : String) (t c : Option String)
    (ht : titleResolved soup url = .ok t)
    (hc : companyResolved soup url = .ok c) :
    extract_job_details soup url =
      ⟨t.getD "Position Not Found", c.getD "Company Not Found",
       platformOf url⟩ := by
  unfold extract_job_details extractCore
  rw [ht]
  dsimp only
  rw [hc]

/-- C4.  The platform tier is tried first and its first non-empty match
wins outright; only when the platform tier produces nothing (including
the Other/Unknown-platform case where the tier is vacuous) does the
generic tier decide with the same first-non-empty rule, so a page
matching only generic selectors returns those matches, not sentinels. -/
theorem c4_selector_cascade (soup : Soup) (url : String) :
    (∀ t c, platformFirst soup url titleSelectorsIndeed titleSelectorsLinkedin
        = .ok (some t) →
      companyResolved soup url = .ok c →
      (extract_job_details soup url).job_title = t) ∧
    (∀ t c, platformFirst soup url titleSelectorsIndeed titleSelectorsLinkedin
        = .ok none →
      firstNonEmpty soup titleSelectorsGeneric = .ok (some t) →
      platformFirst soup url companySelectorsIndeed companySelectorsLinkedin
        = .ok none →
      firstNonEmpty soup companySelectorsGeneric = .ok (some c) →
      extract_job_details soup url = ⟨t, c, platformOf url⟩) := by
  constructor
  · intro t c h1 h2
    have ht : titleResolved soup url = .ok (some t) := by
      unfold titleResolved
      rw [h1]
    rw [extract_eq soup url _ c ht h2]
    rfl
  · intro t c h1 h2 h3 h4
    have ht : titleResolved soup url = .ok (some t) := by
      unfold titleResolved
      rw [h1]
      dsimp only
      exact h2
    have hc : companyResolved soup url = .ok (some c) := by
      unfold companyResolved
      rw [h3]
      dsimp only
      exact h4
    rw [extract_eq soup url _ _ ht hc]
    rfl

/-- C4 witness: a page with only a generic `h1` title and a generic
company element, on an unknown-platform URL, yields the generic matches. -/
theorem c4_selector_cascade_witness :
    extract_job_details
      ⟨fun sel =>
        if sel = "h1" then .ok (some ⟨"Generic Title", "Generic Title"⟩)
        else if sel = "div[class*=\"company\"]" then .ok (some ⟨" Acme ", "Acme"⟩)
        else .ok none, .ok none⟩
      "https://jobs.example.com/1" =
      ⟨"Generic Title", "Acme", "Other"⟩ :=
  (c4_selector_cascade
    ⟨fun sel =>
      if sel = "h1" then .ok (some ⟨"Generic Title", "Generic Title"⟩)
      else if sel = "div[class*=\"company\"]" then .ok (some ⟨" Acme ", "Acme"⟩)
      else .ok none, .ok none⟩
    "https://jobs.example.com/1").2 "Generic Title" "Acme" rfl rfl rfl rfl

/-- C6.  Extraction is total: if the selector-evaluation body raises,
the exception is caught and the sentinels are returned together with the
URL-derived platform; an empty/garbage page (no selector matches
anything) also returns the sentinels. -/
theorem c6_extract_never_raises :
    (∀ soup url e, extractCore soup url = .error e →
      extract_job_details soup url =
        ⟨"Position Not Found", "Company Not Found", platformOf url⟩) ∧
    (∀ url, extract_job_details emptySoup url =
      ⟨"Position Not Found", "Company Not Found", platformOf url⟩) := by
  constructor
  · intro soup url e h
    unfold extract_job_details
    rw [h]
  · intro url
    have hf : ∀ l, firstNonEmpty emptySoup l = .ok none := by
      intro l
      induction l with
      | nil => rfl
      | cons s rest ih =>
          simp only [firstNonEmpty, emptySoup]
          exact ih
    have hpt : ∀ l1 l2, platformFirst emptySoup url l1 l2 = .ok none := by
      intro l1 l2
      unfold platformFirst
      split
      · exact hf l1
      · split
        · exact hf l2
        · rfl
    have ht : titleResolved emptySoup url = .ok none := by
      unfold titleResolved
      rw [hpt]
      dsimp only
      exact hf _
    have hc : companyResolved emptySoup url = .ok none := by
      unfold companyResolved
      rw [hpt]
      dsimp only
      exact hf _
    rw [extract_eq emptySoup url none none ht hc]
    rfl

/-- C6 witness: a page whose selector evaluation raises still yields the
sentinel extraction result. -/
theorem c6_extract_never_raises_witness :
    extract_job_details ⟨fun _ => .error "boom", .ok none⟩
      "https://jobs.example.com/x" =
      ⟨"Position Not Found", "Company Not Found", "Other"⟩ :=
  c6_extract_never_raises.1 ⟨fun _ => .error "boom", .ok none⟩
    "https://jobs.example.com/x" "boom" rfl

/-- C7.  An empty URL or one whose parse yields no scheme is rejected
with the hard invalid-URL failure, for EVERY network outcome — the
result does not depend on the network at all, so no request is needed. -/
theorem c7_invalid_url (url : String) (net : FetchResult)
    (h : url = "" ∨ urlScheme url = "") :
    scrape_job_description url net = invalidUrlResult := by
  unfold scrape_job_description
  rw [if_pos h]

/-- C7 witness: a scheme-less URL is rejected regardless of what the
network would have answered. -/
theorem c7_invalid_url_witness :
    scrape_job_description "www.example.com" (.requestExc "sent") =
      invalidUrlResult :=
  c7_invalid_url "www.example.com" (.requestExc "sent") (Or.inr rfl)

/-- C5 (amended).  For a valid URL: HTTP 403 yields the dedicated soft
success with the manual-entry flag; statuses in [400, 600) (which are
exactly those `raise_for_status` raises on) and transport errors yield
the generic manual-entry soft success; the catch-all handler also yields
a soft success; and no reachable network outcome ever produces a hard
failure.  Non-2xx statuses OUTSIDE [400, 600) (1xx/3xx/600+) are NOT
special-cased: they proceed to normal extraction (counterexample). -/
theorem c5_soft_failures (url : String)
    (h : ¬(url = "" ∨ urlScheme url = "")) :
    (∀ page, scrape_job_description url (.resp 403 page) = soft403Result) ∧
    (∀ status page, 400 ≤ status → status < 600 → status ≠ 403 →
      scrape_job_description url (.resp status page) = transportSoftResult) ∧
    (∀ m, scrape_job_description url (.requestExc m) = transportSoftResult) ∧
    (∀ m, scrape_job_description url (.otherExc m) = unexpectedSoftResult) ∧
    (∀ net, (scrape_job_description url net).success = true) := by
  refine ⟨?_, ?_, ?_, ?_, ?_⟩
  · intro page
    unfold scrape_job_description
    rw [if_neg h]
    rfl
  · intro status page h1 h2 h3
    unfold scrape_job_description
    rw [if_neg h]
    dsimp only
    rw [if_neg h3, if_pos ⟨h1, h2⟩]
  · intro m
    unfold scrape_job_description
    rw [if_neg h]
  · intro m
    unfold scrape_job_description
    rw [if_neg h]
  · intro net
    unfold scrape_job_description
    rw [if_neg h]
    cases net with
    | requestExc m => rfl
    | otherExc m => rfl
    | resp status page =>
        dsimp only
        by_cases h403 : status = 403
        · rw [if_pos h403]
          rfl
        · rw [if_neg h403]
          by_cases hr : 400 ≤ status ∧ status < 600
          · rw [if_pos hr]
            rfl
          · rw [if_neg hr]
            cases hcore : scrapeCore url page with
            | ok r => exact scrapeCore_ok_success url page r hcore
            | error e => rfl

/-- C5 witness: a 403 response is downgraded to the dedicated soft
success with the manual-entry flag. -/
theorem c5_soft_failures_witness :
    scrape_job_description "https://example.com/a" (.resp 403 emptySoup) =
      soft403Result :=
  (c5_soft_failures "https://example.com/a" (by decide)).1 emptySoup

/-- C5 counterexample: status 999 (as LinkedIn actually returns) is
non-2xx, yet `raise_for_status` does not raise on it, so the page is
scraped normally: success with a real description and NO
`requires_manual_entry` flag, refuting "every other non-2xx status"
yields a manual-entry result. -/
theorem c5_status_999_no_flag :
    scrape_job_description "https://example.com/job"
      (.resp 999 ⟨fun sel =>
        if sel = "div.job-description" then
          .ok (some ⟨"Great job", "Great job"⟩)
        else .ok none, .ok none⟩) =
      ⟨true, none, some "Great job", some "Position Not Found",
       some "Company Not Found", some "Other", none⟩ := rfl

/-- C10.  In description extraction the first selector matching ANY
element wins — no non-empty-text check — so a first match whose text
strips to nothing still produces a success with that (possibly empty)
description and WITHOUT the `requires_manual_entry` key, unlike the
title/company loops, which skip an element with empty stripped text. -/
theorem c10_description_first_match :
    (∀ url page el, ¬(url = "" ∨ urlScheme url = "") →
      firstDescMatch page descriptionSelectors = .ok (some el) →
      scrape_job_description url (.resp 200 page) =
        descSuccessResult el.getTextStrip (extract_job_details page url)) ∧
    (∀ page sel rest el, page.selectOne sel = .ok (some el) →
      firstDescMatch page (sel :: rest) = .ok (some el)) ∧
    (∀ soup sel rest el, soup.selectOne sel = .ok (some el) →
      pyStrip el.text = "" →
      firstNonEmpty soup (sel :: rest) = firstNonEmpty soup rest) := by
  refine ⟨?_, ?_, ?_⟩
  · intro url page el h hd
    unfold scrape_job_description
    rw [if_neg h]
    dsimp only
    rw [if_neg (by decide : ¬(200 = 403)), if_neg (by decide : ¬(400 ≤ 200 ∧ 200 < 600)),
        scrapeCore_eq, hd]
  · intro page sel rest el h
    unfold firstDescMatch
    rw [h]
  · intro soup sel rest el h1 h2
    show (match soup.selectOne sel with
      | Except.error e => Except.error e
      | Except.ok none => firstNonEmpty soup rest
      | Except.ok (some e) =>
          if pyStrip e.text != "" then Except.ok (some (pyStrip e.text))
          else firstNonEmpty soup rest) = firstNonEmpty soup rest
    rw [h1]
    dsimp only
    rw [h2]
    rfl

/-- C10 witness: a page whose first matching description element holds
only whitespace yields success with an empty description and no
`requires_manual_entry` key. -/
theorem c10_description_first_match_witness :
    scrape_job_description "https://jobs.example.com/a"
      (.resp 200 ⟨fun sel =>
        if sel = "div.job-description" then .ok (some ⟨"   ", ""⟩)
        else .ok none, .ok none⟩) =
      ⟨true, none, some "", some "Position Not Found",
       some "Company Not Found", some "Other", none⟩ :=
  c10_description_first_match.1 "https://jobs.example.com/a"
    ⟨fun sel =>
      if sel = "div.job-description" then .ok (some ⟨"   ", ""⟩)
      else .ok none, .ok none⟩
    ⟨"   ", ""⟩ (by decide) rfl

/-- C9.  A resume whose lowercased filename ends neither in ".pdf" nor
".txt" is rejected with the unsupported-format failure; the result is
the same for every possible file content and downstream input, i.e. the
content is never read or decoded. -/
theorem c9_unsupported_format (name : String) (pdfR txtR : Except String String)
    (links : String) (resp : Option String)
    (h1 : pyEndsWith (pyLower name) ".pdf" = false)
    (h2 : pyEndsWith (pyLower name) ".txt" = false) :
    analyze_resume ⟨name, pdfR, txtR⟩ links resp =
      .failure "Unsupported file format. Please upload a PDF or TXT file." := by
  unfold analyze_resume
  simp [h1, h2]

/-- C9 witness: a ".docx" upload is rejected without touching content. -/
theorem c9_unsupported_format_witness :
    analyze_resume ⟨"resume.docx", .ok "pdf text", .ok "txt text"⟩
      "[]" none =
      .failure "Unsupported file format. Please upload a PDF or TXT file." :=
  c9_unsupported_format "resume.docx" (.ok "pdf text") (.ok "txt text")
    "[]" none rfl rfl
